import Mathlib

/-!
# Photometric and geometric undistortion (`src/dso/util/Undistort.h`)

A shallow embedding of the classes `PhotometricUndistorter` and `Undistort`
declared in `Undistort.h`, and theorems about their inline members.

Conventions of the embedding:

* `int` members are `Int`; no arithmetic is performed on them by the inline
  members, so no wrap-around is involved;
* `float` and `double` values are exact rationals (`Flt`);
* a pointer that may be null is an `Option`;
* a member function is a function from the object state to its result and the
  state after the call, so that a write to a member would be visible;
* a member the constructor leaves uninitialised is an extra argument of the
  constructor model: a theorem about the constructed state holds for every
  value the member may happen to have.

The member functions whose bodies live in `Undistort.cpp` are not part of the
header.  Where a statement needs one of them, it is modelled from the prose
specification, and the definition says so.  In the model of the geometric
resample a read outside the raw buffer is a fault (`none`), never a value.
-/

namespace dso

/-! ## Data model -/

/-- Values of the C++ types `float` and `double`, idealised as exact rationals. -/
abbrev Flt := ℚ

/-- The type `Mat33` of `util/NumType.h`: a 3 by 3 matrix. -/
abbrev Mat33 := Fin 3 → Fin 3 → Flt

/-- The type `VecX` of `util/NumType.h`: a vector of dynamic length. -/
abbrev VecX := List Flt

/-- The type `Eigen::Vector2i`: a pair of `int`. -/
abbrev Vector2i := Int × Int

/-- Modelled from the spec: the raw-image container `MinimalImage<T>` of
`util/MinimalImage.h` (absent), a plain data buffer with width and height. -/
structure MinimalImage (T : Type) where
  w : Int
  h : Int
  data : List T

/-- A raw image is well formed when its dimensions are not negative and its
buffer holds `w * h` samples. -/
def MinimalImage.WellFormed {T : Type} (img : MinimalImage T) : Prop :=
  0 ≤ img.w ∧ 0 ≤ img.h ∧ img.data.length = (img.w * img.h).toNat

instance {T : Type} (img : MinimalImage T) : Decidable img.WellFormed := by
  unfold MinimalImage.WellFormed; infer_instance

/-- Modelled from the spec: the output container `ImageAndExposure` of
`util/ImageAndExposure.h` (absent), a float buffer with output width and height,
exposure and timestamp. -/
structure ImageAndExposure where
  w : Int
  h : Int
  timestamp : Flt
  image : List Flt
  exposure_time : Flt

/-- Number of entries of the member `float G[256*256]`. -/
abbrev G_capacity : Nat := 256 * 256

/-- The members of `class PhotometricUndistorter` (lines 53 to 66).  The type of
the settings object (`util/settings.h`, absent) is a parameter. -/
structure PhotometricUndistorter (GlobalSettings : Type) where
  output : Option ImageAndExposure
  globalSettings : GlobalSettings
  G : Fin G_capacity → Flt
  GDepth : Int
  vignetteMap : Option (List Flt)
  vignetteMapInv : Option (List Flt)
  w : Int
  h : Int
  valid : Bool

/-- The members of `class Undistort` (lines 99 to 113). -/
structure Undistort (GlobalSettings : Type) where
  photometricUndist : Option (PhotometricUndistorter GlobalSettings)
  globalSettings : GlobalSettings
  w : Int
  h : Int
  wOrg : Int
  hOrg : Int
  wUp : Int
  hUp : Int
  upsampleUndistFactor : Int
  K : Mat33
  parsOrg : VecX
  valid : Bool
  passthrough : Bool
  remapX : Option (List Flt)
  remapY : Option (List Flt)

/-! ## Inline members of the header -/

section Inline

variable {GlobalSettings : Type}

/-- Line 55: `float* getG() {if(!valid) return 0; else return G;}`.
The null pointer is `none`; a non-null result is the table it points to. -/
def PhotometricUndistorter.getG (s : PhotometricUndistorter GlobalSettings) :
    Option (Fin G_capacity → Flt) × PhotometricUndistorter GlobalSettings :=
  (if !s.valid then none else some s.G, s)

/-- Lines 74 to 80: the constructor `Undistort::Undistort` of the base class
(a definition of that name inside the namespace of the structure would shadow
the structure, hence `ctor`).  The members `K` and
`photometricUndist` are not in the initialiser list and have no default member
initialiser: their values after construction are whatever `K0` and
`photometricUndist0` are.  `parsOrg` is default-constructed, a vector of length
zero. -/
def Undistort.ctor (globalSetting_ : GlobalSettings) (K0 : Mat33)
    (photometricUndist0 : Option (PhotometricUndistorter GlobalSettings)) :
    Undistort GlobalSettings where
  photometricUndist := photometricUndist0
  globalSettings := globalSetting_
  remapX := none
  remapY := none
  passthrough := false
  valid := false
  upsampleUndistFactor := 0
  w := 0
  h := 0
  wOrg := 0
  hOrg := 0
  wUp := 0
  hUp := 0
  K := K0
  parsOrg := []

/-- Line 85: `inline const Mat33 getK() const {return K;}`. -/
def Undistort.getK (s : Undistort GlobalSettings) : Mat33 × Undistort GlobalSettings :=
  (s.K, s)

/-- Line 86: `inline const Eigen::Vector2i getSize() const {return Eigen::Vector2i(w,h);}`. -/
def Undistort.getSize (s : Undistort GlobalSettings) : Vector2i × Undistort GlobalSettings :=
  ((s.w, s.h), s)

/-- Line 87: `inline const VecX getOriginalParameter() const {return parsOrg;}`. -/
def Undistort.getOriginalParameter (s : Undistort GlobalSettings) :
    VecX × Undistort GlobalSettings :=
  (s.parsOrg, s)

/-- Line 88: `inline const Eigen::Vector2i getOriginalSize() {return Eigen::Vector2i(wOrg,hOrg);}`. -/
def Undistort.getOriginalSize (s : Undistort GlobalSettings) :
    Vector2i × Undistort GlobalSettings :=
  ((s.wOrg, s.hOrg), s)

/-- Line 89: `inline bool isValid() {return valid;}`. -/
def Undistort.isValid (s : Undistort GlobalSettings) : Bool × Undistort GlobalSettings :=
  (s.valid, s)

end Inline

/-! ## Default arguments (lines 50 and 92) -/

/-- The four parameters of
`processFrame(T* image_in, float exposure_time, float factor=1, bool setMeta = true)`. -/
structure ProcessFrameArgs (T : Type) where
  image_in : List T
  exposure_time : Flt
  factor : Flt
  setMeta : Bool

/-- The ways a call of `processFrame` may be written: a parameter with a default
argument may be left out together with all parameters after it. -/
inductive ProcessFrameCall (T : Type) where
  | upToExposure (image_in : List T) (exposure_time : Flt)
  | upToFactor (image_in : List T) (exposure_time : Flt) (factor : Flt)
  | upToSetMeta (image_in : List T) (exposure_time : Flt) (factor : Flt) (setMeta : Bool)

/-- The argument list a written call of `processFrame` stands for, with the
defaults of line 50: `factor=1`, `setMeta = true`. -/
def ProcessFrameCall.args {T : Type} : ProcessFrameCall T → ProcessFrameArgs T
  | .upToExposure image_in exposure_time => ⟨image_in, exposure_time, 1, true⟩
  | .upToFactor image_in exposure_time factor => ⟨image_in, exposure_time, factor, true⟩
  | .upToSetMeta image_in exposure_time factor setMeta =>
      ⟨image_in, exposure_time, factor, setMeta⟩

/-- The five parameters of `undistort(const MinimalImage<T>* image_raw, float exposure=0,
double timestamp=0, float factor=1, bool useColourPassed = false)`. -/
structure UndistortArgs (T : Type) where
  image_raw : MinimalImage T
  exposure : Flt
  timestamp : Flt
  factor : Flt
  useColourPassed : Bool

/-- The ways a call of `undistort` may be written. -/
inductive UndistortCall (T : Type) where
  | upToImage (image_raw : MinimalImage T)
  | upToExposure (image_raw : MinimalImage T) (exposure : Flt)
  | upToTimestamp (image_raw : MinimalImage T) (exposure : Flt) (timestamp : Flt)
  | upToFactor (image_raw : MinimalImage T) (exposure : Flt) (timestamp : Flt) (factor : Flt)
  | upToColour (image_raw : MinimalImage T) (exposure : Flt) (timestamp : Flt) (factor : Flt)
      (useColourPassed : Bool)

/-- The argument list a written call of `undistort` stands for, with the defaults
of line 92: `exposure=0`, `timestamp=0`, `factor=1`, `useColourPassed = false`. -/
def UndistortCall.args {T : Type} : UndistortCall T → UndistortArgs T
  | .upToImage image_raw => ⟨image_raw, 0, 0, 1, false⟩
  | .upToExposure image_raw exposure => ⟨image_raw, exposure, 0, 1, false⟩
  | .upToTimestamp image_raw exposure timestamp => ⟨image_raw, exposure, timestamp, 1, false⟩
  | .upToFactor image_raw exposure timestamp factor =>
      ⟨image_raw, exposure, timestamp, factor, false⟩
  | .upToColour image_raw exposure timestamp factor useColourPassed =>
      ⟨image_raw, exposure, timestamp, factor, useColourPassed⟩

/-- A call of a member function whose body `body` takes the full argument list:
the written call is completed with the defaults, then the body runs. -/
def ProcessFrameCall.run {T R : Type} (body : ProcessFrameArgs T → R)
    (c : ProcessFrameCall T) : R :=
  body c.args

/-- A call of `undistort` with body `body`, completed with the defaults. -/
def UndistortCall.run {T R : Type} (body : UndistortArgs T → R) (c : UndistortCall T) : R :=
  body c.args

/-! ## Members defined in `Undistort.cpp`, modelled from the specification -/

section SpecModel

variable {GlobalSettings : Type}

/-- Modelled from the spec: the monotonicity validation of the response table run
by the constructor of `PhotometricUndistorter` (body in `Undistort.cpp`, absent):
"for all i < j, G[i] ≤ G[j]", checked by one pass over neighbouring entries. -/
def monotoneScan : List Flt → Bool
  | a :: b :: rest => decide (a ≤ b) && monotoneScan (b :: rest)
  | _ => true

/-- Modelled from the spec: the constructor
`PhotometricUndistorter(file, noiseImage, vignetteImage, w_, h_, globalSettings_)`
of line 43 (body in `Undistort.cpp`, absent).  The calibration assets are read by
external collaborators; the model takes what they delivered: `response` is the flat
list of the response file ("length defining GDepth"), `vignette` the decoded
vignette image, each `none` when the file is missing (the spec names no use of
the noise image).  "Validity flag: set false
if the response table fails monotonicity validation, calibration files are
missing, or declared dimensions mismatch the configured width/height"; a vignette
with a non-positive entry is rejected as well (section 7).  The normalisation of
the vignette field is not modelled: it does not bear on validity.  The output
container is created for the configured size with an empty buffer. -/
def PhotometricUndistorter.ctor (response : Option (List Flt))
    (vignette : Option (MinimalImage Flt)) (w_ h_ : Int) (globalSettings_ : GlobalSettings) :
    PhotometricUndistorter GlobalSettings where
  output := some ⟨w_, h_, 0, [], 0⟩
  globalSettings := globalSettings_
  G := fun i => (response.getD []).getD i.val 0
  GDepth := (response.getD []).length
  vignetteMap := vignette.map (fun v => v.data)
  vignetteMapInv := vignette.map (fun v => v.data.map (fun x => 1 / x))
  w := w_
  h := h_
  valid :=
    match response, vignette with
    | some table, some v =>
        monotoneScan table && decide (v.w = w_) && decide (v.h = h_)
          && v.data.all (fun x => decide (0 < x))
    | _, _ => false

/-- Modelled from the spec: `processFrame` (body in `Undistort.cpp`, absent), for
samples of an unsigned integer type.  Section 4.3: "for each pixel, look up the
inverse-response value G[raw_intensity], divide by the (exposure-time-scaled)
vignette factor at that pixel location if a vignette map is loaded, and scale by
the caller-supplied factor; if either the response table or vignette map failed
to load (invalid), this step degrades to straight value-copy with optional
exposure scaling only".  The result is "a float irradiance buffer, same dimensions
as the input"; line 49 of the header: "output will be written in [output]".  A
sample is reduced into the range of `G` before the lookup, which changes no
8-bit or 16-bit sample; a pixel for which the vignette map has no entry is not
scaled by the vignette. -/
def PhotometricUndistorter.processFrame (s : PhotometricUndistorter GlobalSettings)
    (a : ProcessFrameArgs Nat) : List Flt × PhotometricUndistorter GlobalSettings :=
  let data : List Flt :=
    if s.valid then
      a.image_in.mapIdx (fun i v =>
        a.factor * (s.G ⟨v % G_capacity, Nat.mod_lt v (by decide)⟩ /
          (match s.vignetteMap with
           | some m => a.exposure_time * m.getD i 1
           | none => 1)))
    else
      a.image_in.map (fun (v : Nat) => a.factor * (v : Flt))
  (data,
    { s with output := s.output.map (fun o =>
        { o with image := data,
                 exposure_time := if a.setMeta then a.exposure_time else o.exposure_time }) })

/-- Modelled from the spec: an entry of the remap table is the sentinel when a
coordinate is negative ("A sentinel (e.g., negative coordinate) marks output pixels
with no valid raw-image source"). -/
def markedInvalid (e : Flt × Flt) : Prop := e.1 < 0 ∨ e.2 < 0

instance (e : Flt × Flt) : Decidable (markedInvalid e) := by
  unfold markedInvalid; infer_instance

/-- The four raw pixels around the fractional raw coordinate `(xx, yy)`: the
bilinear source neighbours. -/
def fourNeighbours (xx yy : Flt) : List (Int × Int) :=
  [(⌊xx⌋, ⌊yy⌋), (⌊xx⌋ + 1, ⌊yy⌋), (⌊xx⌋, ⌊yy⌋ + 1), (⌊xx⌋ + 1, ⌊yy⌋ + 1)]

/-- A raw pixel `(x, y)` is addressable within raw bounds `wOrg` by `hOrg`. -/
def addressable (wOrg hOrg : Int) (p : Int × Int) : Prop :=
  0 ≤ p.1 ∧ p.1 < wOrg ∧ 0 ≤ p.2 ∧ p.2 < hOrg

instance (wOrg hOrg : Int) (p : Int × Int) : Decidable (addressable wOrg hOrg p) := by
  unfold addressable; infer_instance

/-- Positions in the row-major raw buffer read for the coordinate `(xx, yy)`, in
the order of `fourNeighbours`. -/
def readIndices (wOrg : Int) (xx yy : Flt) : List Int :=
  (fourNeighbours xx yy).map (fun p => p.1 + p.2 * wOrg)

/-- Bilinear weights of the four neighbours, from the fractional parts of the
coordinate, in the order of `fourNeighbours`. -/
def bilinearWeights (xx yy : Flt) : List Flt :=
  let fx := xx - ⌊xx⌋
  let fy := yy - ⌊yy⌋
  [(1 - fx) * (1 - fy), fx * (1 - fy), (1 - fx) * fy, fx * fy]

/-- A read of the raw buffer at position `i`.  A position outside the buffer is
a fault: the read yields `none`. -/
def readRaw (src : List Flt) (i : Int) : Option Flt :=
  if 0 ≤ i then src[i.toNat]? else none

/-- All results of a list of steps that may fault; `none` as soon as one step
faulted. -/
def collect {α : Type} : List (Option α) → Option (List α)
  | [] => some []
  | none :: _ => none
  | some a :: rest => (collect rest).map (fun r => a :: r)

/-- Modelled from the spec: the value of one output pixel in the per-frame
resample (section 4.2): "if its Remap Table entry is the sentinel, emit a defined
invalid value (e.g., zero or NaN, consistently); otherwise bilinearly interpolate
the four raw-image neighbors using the fractional remap coordinate".  The invalid
value is zero and no sample is read for a sentinel; otherwise all four neighbours
are read, and the pixel faults when one of the reads does. -/
def resamplePixel (wOrg : Int) (src : List Flt) (xx yy : Flt) : Option Flt :=
  if markedInvalid (xx, yy) then some 0
  else (collect ((readIndices wOrg xx yy).map (readRaw src))).map (fun taps =>
          (List.zipWith (fun c v => c * v) (bilinearWeights xx yy) taps).sum)

/-- Modelled from the spec: one entry of the remap table at build time (the
build is in `Undistort.cpp`, absent).  Section 4.2: "store the resulting raw
coordinate; mark out-of-raw-bounds results with the sentinel", and this "bounds
check at table-build time" is what enforces that the resample "never reads
outside raw buffer bounds"; section 3 words the condition: "every in-bounds entry
must reference a point such that its 4 bilinear neighbors lie within raw image
bounds".  A coordinate that only lies inside the raw image does not meet it
(`inside_raw_image_is_not_enough`).  `src` is the raw coordinate the distortion
model gave. -/
def remapEntry (wOrg hOrg : Int) (src : Flt × Flt) : Flt × Flt :=
  if ∀ n ∈ fourNeighbours src.1 src.2, addressable wOrg hOrg n then src else (-1, -1)

/-- Modelled from the spec: the remap table built for an output of `w` by `h`
pixels.  `source idx` is the raw coordinate for output pixel `idx`: the rectified
normalised coordinate from `K`, passed through the forward mapping of the
distortion model (`distortCoordinates`, pure virtual in the header). -/
def buildRemap (source : Nat → Flt × Flt) (w h wOrg hOrg : Int) : List Flt × List Flt :=
  ((List.range (w * h).toNat).map (fun idx => (remapEntry wOrg hOrg (source idx)).1),
   (List.range (w * h).toNat).map (fun idx => (remapEntry wOrg hOrg (source idx)).2))

/-- The entry of a remap table for output pixel `idx`. -/
def remapAt (t : List Flt × List Flt) (idx : Nat) : Flt × Flt :=
  (t.1.getD idx (-1), t.2.getD idx (-1))

/-- Modelled from the spec: the table-build step of the rectifier's construction
(section 2: "at construction time it uses the chosen Distortion Model to build a
static per-output-pixel source-coordinate table"), for the geometry the state
holds. -/
def Undistort.buildRemapTable (s : Undistort GlobalSettings) (source : Nat → Flt × Flt) :
    Undistort GlobalSettings :=
  { s with
    remapX := some (buildRemap source s.w s.h s.wOrg s.hOrg).1
    remapY := some (buildRemap source s.w s.h s.wOrg s.hOrg).2 }

/-- Modelled from the spec: the geometric resample of the corrected buffer `src`
through the remap table of the state, one value per output pixel (section 4.2).
A null table, an output pixel without a table entry, or a read outside `src` is
a fault. -/
def Undistort.resample (s : Undistort GlobalSettings) (src : List Flt) : Option (List Flt) :=
  match s.remapX, s.remapY with
  | some rx, some ry =>
      collect ((List.range (s.w * s.h).toNat).map (fun idx =>
        match rx[idx]?, ry[idx]? with
        | some xx, some yy => resamplePixel s.wOrg src xx yy
        | _, _ => none))
  | _, _ => none

/-- Modelled from the spec: `Undistort::undistort` (body in `Undistort.cpp`,
absent), for samples of an unsigned integer type.  Section 2: the rectifier
"applies the Photometric Corrector first, then resamples through the remap table
via bilinear interpolation"; the input of the resample is a "buffer at raw
resolution", so a raw image that is not of the raw geometry is refused; the
result is "float buffer + output width/height + exposure + timestamp".  In
passthrough mode (member `passthrough`, line 110) the output "must produce
bit-identical output to the input buffer": the corrected buffer is handed on as
it is.  A null `photometricUndist` cannot be dereferenced.  Every failure is
`none`. -/
def Undistort.undistort (s : Undistort GlobalSettings) (a : UndistortArgs Nat) :
    Option (ImageAndExposure × Undistort GlobalSettings) :=
  match s.photometricUndist with
  | none => none
  | some p =>
      if a.image_raw.WellFormed ∧ a.image_raw.w = s.wOrg ∧ a.image_raw.h = s.hOrg then
        let r := p.processFrame ⟨a.image_raw.data, a.exposure, a.factor, true⟩
        (if s.passthrough then some r.1 else s.resample r.1).map (fun image =>
          ({ w := s.w
             h := s.h
             timestamp := a.timestamp
             exposure_time := a.exposure
             image := image },
           { s with photometricUndist := some r.2 }))
      else none

/-- Modelled from the spec: the rectifier constructed when no calibration is
supplied, for raw images of `wRaw` by `hRaw` pixels (section 4.2, passthrough
mode): "output geometry equals raw geometry", the remap table is built from "the
identity mapping" (output pixel `idx` of a row-major image has the raw coordinate
`(idx % wRaw, idx / wRaw)`), and the photometric corrector is the one constructed
without calibration files.  The spec fixes neither `K` beyond "identity-equivalent
pinhole" nor what `isValid` reports in this mode: both are arguments. -/
def Undistort.passthroughFor (globalSetting_ : GlobalSettings) (K0 : Mat33) (valid_ : Bool)
    (wRaw hRaw : Int) : Undistort GlobalSettings :=
  Undistort.buildRemapTable
    { Undistort.ctor globalSetting_ K0
        (some (PhotometricUndistorter.ctor none none wRaw hRaw globalSetting_)) with
      w := wRaw
      h := hRaw
      wOrg := wRaw
      hOrg := hRaw
      passthrough := true
      valid := valid_ }
    (fun idx => (((idx % wRaw.toNat : Nat) : Flt), ((idx / wRaw.toNat : Nat) : Flt)))

/-- The sentinel invariant in the wording of section 8, at output pixel `idx` of
the table built from `source`: a pixel marked invalid has none of its four
neighbours addressable, a valid one has all four addressable. -/
def SentinelInvariantAsWorded (source : Nat → Flt × Flt) (w h wOrg hOrg : Int) (idx : Nat) :
    Prop :=
  (markedInvalid (remapAt (buildRemap source w h wOrg hOrg) idx) →
      ∀ n ∈ fourNeighbours (source idx).1 (source idx).2, ¬ addressable wOrg hOrg n) ∧
  (¬ markedInvalid (remapAt (buildRemap source w h wOrg hOrg) idx) →
      ∀ n ∈ fourNeighbours (remapAt (buildRemap source w h wOrg hOrg) idx).1
              (remapAt (buildRemap source w h wOrg hOrg) idx).2, addressable wOrg hOrg n)

instance (source : Nat → Flt × Flt) (w h wOrg hOrg : Int) (idx : Nat) :
    Decidable (SentinelInvariantAsWorded source w h wOrg hOrg idx) := by
  unfold SentinelInvariantAsWorded; infer_instance

/-- A raw image of 4 by 4 pixels with the samples 0 to 15. -/
def rawExample : MinimalImage Nat :=
  ⟨4, 4, [0, 1, 2, 3, 4, 5, 6, 7, 8, 9, 10, 11, 12, 13, 14, 15]⟩

/-- Raw coordinates for an output of two pixels: the first inside the raw image
with all neighbours, the second left of the raw image. -/
def sourceExample (idx : Nat) : Flt × Flt :=
  if idx = 0 then (1 / 2, 1) else (-1 / 2, 1)

/-- A rectifier for raw images of 4 by 4 pixels and an output of 2 by 1 pixels,
before its table is built; the corrector was constructed without calibration
files. -/
def rectifierExample : Undistort Unit :=
  { Undistort.ctor () (fun _ _ => 0) (some (PhotometricUndistorter.ctor none none 4 4 ())) with
    w := 2
    h := 1
    wOrg := 4
    hOrg := 4
    valid := true }

end SpecModel

/-! ## Theorems about the inline members -/

section InlineTheorems

variable {GlobalSettings : Type}

/-- C1: `getG` returns the null indicator exactly when the valid flag is false, and
returns the object's own table `G`, not null, exactly when the valid flag is true. -/
theorem getG_null_iff_invalid (s : PhotometricUndistorter GlobalSettings) :
    (s.getG.1 = none ↔ s.valid = false) ∧ (s.getG.1 = some s.G ↔ s.valid = true) := by
  cases hv : s.valid <;> simp [PhotometricUndistorter.getG, hv]

/-- C2: for every settings argument, and whatever the uninitialised members hold,
the state made by the base constructor reports `isValid() == false`; `isValid`
reports the valid flag of any state as it is, so the report stays false until a
later step writes the flag. -/
theorem ctor_reports_invalid (globalSetting_ : GlobalSettings) (K0 : Mat33)
    (photometricUndist0 : Option (PhotometricUndistorter GlobalSettings)) :
    (Undistort.ctor globalSetting_ K0 photometricUndist0).isValid.1 = false ∧
    ∀ s : Undistort GlobalSettings, s.isValid.1 = s.valid :=
  ⟨rfl, fun _ => rfl⟩

/-- C6: the table `G` has `256*256 = 65536 = 2^16` entries, so every 8-bit and every
16-bit unsigned raw intensity is the position of an entry of `G`. -/
theorem G_holds_16_bit (v8 : Fin (2 ^ 8)) (v16 : Fin (2 ^ 16)) :
    G_capacity = 256 * 256 ∧ G_capacity = 65536 ∧ G_capacity = 2 ^ 16 ∧
    v8.val < G_capacity ∧ v16.val < G_capacity ∧
    (∃ i : Fin G_capacity, i.val = v8.val) ∧ (∃ i : Fin G_capacity, i.val = v16.val) := by
  have h8 : v8.val < G_capacity := lt_trans v8.isLt (by decide)
  have h16 : v16.val < G_capacity := v16.isLt
  exact ⟨rfl, rfl, rfl, h8, h16, ⟨⟨v8.val, h8⟩, rfl⟩, ⟨⟨v16.val, h16⟩, rfl⟩⟩

/-- C7: in the state made by the base constructor both `remapX` and `remapY` are
the null pointer, `passthrough` is false and `valid` is false: the state is
invalid and has no remap table. -/
theorem ctor_has_no_remap_table (globalSetting_ : GlobalSettings) (K0 : Mat33)
    (photometricUndist0 : Option (PhotometricUndistorter GlobalSettings)) :
    (Undistort.ctor globalSetting_ K0 photometricUndist0).remapX = none ∧
    (Undistort.ctor globalSetting_ K0 photometricUndist0).remapY = none ∧
    (Undistort.ctor globalSetting_ K0 photometricUndist0).passthrough = false ∧
    (Undistort.ctor globalSetting_ K0 photometricUndist0).valid = false :=
  ⟨rfl, rfl, rfl, rfl⟩

/-- C8: a call of `processFrame` that leaves out the trailing arguments stands for
the argument list with `factor = 1` and `setMeta = true`, and a call of `undistort`
with the image alone stands for `(image_raw, 0, 0, 1, false)`; whatever the body of
the function is, both spellings run it on the same arguments. -/
theorem default_arguments {T R R' : Type} (body : ProcessFrameArgs T → R)
    (body' : UndistortArgs T → R') (image : List T) (exposure_time : Flt)
    (image_raw : MinimalImage T) :
    (ProcessFrameCall.upToExposure image exposure_time).args =
      (ProcessFrameCall.upToSetMeta image exposure_time 1 true).args ∧
    (ProcessFrameCall.upToExposure image exposure_time).args =
      ⟨image, exposure_time, 1, true⟩ ∧
    (ProcessFrameCall.upToExposure image exposure_time).run body =
      (ProcessFrameCall.upToSetMeta image exposure_time 1 true).run body ∧
    (UndistortCall.upToImage image_raw).args =
      (UndistortCall.upToColour image_raw 0 0 1 false).args ∧
    (UndistortCall.upToImage image_raw).args = ⟨image_raw, 0, 0, 1, false⟩ ∧
    (UndistortCall.upToImage image_raw).run body' =
      (UndistortCall.upToColour image_raw 0 0 1 false).run body' :=
  ⟨rfl, rfl, rfl, rfl, rfl, rfl⟩

/-- C9: `getSize` returns exactly `(w, h)` and `getOriginalSize` exactly
`(wOrg, hOrg)`; changing `wUp`, `hUp` or `upsampleUndistFactor` changes neither
result, and both are `(0, 0)` on the state made by the base constructor. -/
theorem sizes_are_the_members (s : Undistort GlobalSettings) (wUp' hUp' factor' : Int)
    (globalSetting_ : GlobalSettings) (K0 : Mat33)
    (photometricUndist0 : Option (PhotometricUndistorter GlobalSettings)) :
    s.getSize.1 = (s.w, s.h) ∧ s.getOriginalSize.1 = (s.wOrg, s.hOrg) ∧
    ({ s with wUp := wUp', hUp := hUp', upsampleUndistFactor := factor' } :
        Undistort GlobalSettings).getSize.1 = s.getSize.1 ∧
    ({ s with wUp := wUp', hUp := hUp', upsampleUndistFactor := factor' } :
        Undistort GlobalSettings).getOriginalSize.1 = s.getOriginalSize.1 ∧
    (Undistort.ctor globalSetting_ K0 photometricUndist0).getSize.1 = (0, 0) ∧
    (Undistort.ctor globalSetting_ K0 photometricUndist0).getOriginalSize.1 = (0, 0) :=
  ⟨rfl, rfl, rfl, rfl, rfl, rfl⟩

/-- C10: each inline observer (`getK`, `getSize`, `getOriginalParameter`,
`getOriginalSize`, `isValid` of `Undistort`, `getG` of `PhotometricUndistorter`)
leaves the whole object state as it was, so a second call right after the first
returns the same result. -/
theorem observers_leave_state (s : Undistort GlobalSettings)
    (p : PhotometricUndistorter GlobalSettings) :
    (s.getK.2 = s ∧ s.getSize.2 = s ∧ s.getOriginalParameter.2 = s ∧
      s.getOriginalSize.2 = s ∧ s.isValid.2 = s ∧ p.getG.2 = p) ∧
    (s.getK.2.getK.1 = s.getK.1 ∧ s.getSize.2.getSize.1 = s.getSize.1 ∧
      s.getOriginalParameter.2.getOriginalParameter.1 = s.getOriginalParameter.1 ∧
      s.getOriginalSize.2.getOriginalSize.1 = s.getOriginalSize.1 ∧
      s.isValid.2.isValid.1 = s.isValid.1 ∧ p.getG.2.getG.1 = p.getG.1) :=
  ⟨⟨rfl, rfl, rfl, rfl, rfl, rfl⟩, ⟨rfl, rfl, rfl, rfl, rfl, rfl⟩⟩

end InlineTheorems

/-! ## Theorems about the members modelled from the specification -/

section SpecTheorems

variable {GlobalSettings : Type}

/-- The pass over neighbouring entries accepts a list exactly when every earlier
entry is at most every later one. -/
theorem monotoneScan_iff_pairwise (l : List Flt) :
    monotoneScan l = true ↔ l.Pairwise (fun a b => a ≤ b) := by
  rw [← List.chain'_iff_pairwise]
  induction l with
  | nil => simp [monotoneScan]
  | cons a t ih =>
    cases t with
    | nil => simp [monotoneScan]
    | cons b rest =>
      simp only [monotoneScan, Bool.and_eq_true, decide_eq_true_eq, List.chain'_cons]
      rw [ih]

/-- A table without a descent, together with a vignette image of the configured
size whose entries are positive, makes a valid corrector: the validity flag of the
constructor model is not constantly false. -/
theorem ctor_accepts_monotone (table : List Flt) (v : MinimalImage Flt)
    (globalSettings_ : GlobalSettings)
    (hmono : table.Pairwise (fun a b => a ≤ b)) (hpos : ∀ x ∈ v.data, 0 < x) :
    (PhotometricUndistorter.ctor (some table) (some v) v.w v.h globalSettings_).valid = true := by
  simp only [PhotometricUndistorter.ctor, Bool.and_eq_true, decide_eq_true_eq,
    List.all_eq_true]
  exact ⟨⟨⟨(monotoneScan_iff_pairwise table).2 hmono, trivial⟩, trivial⟩, hpos⟩

/-- C3: constructing a corrector from a response table with a descent (positions
`i < j` with `table[i] > table[j]`) leaves the validity flag false, and `getG` on
the constructed object returns the null indicator. -/
theorem ctor_rejects_descent (table : List Flt) (vignette : Option (MinimalImage Flt))
    (w_ h_ : Int) (globalSettings_ : GlobalSettings)
    (hdesc : ∃ (i j : Nat) (_ : i < j) (hj : j < table.length),
      table[j] < table[i]) :
    (PhotometricUndistorter.ctor (some table) vignette w_ h_ globalSettings_).valid = false ∧
    (PhotometricUndistorter.ctor (some table) vignette w_ h_ globalSettings_).getG.1 = none := by
  obtain ⟨i, j, hij, hj, hlt⟩ := hdesc
  have hscan : monotoneScan table = false := by
    by_contra hne
    have hp := (monotoneScan_iff_pairwise table).1 (by simpa using hne)
    have := List.pairwise_iff_getElem.1 hp i j (lt_trans hij hj) hj hij
    exact absurd hlt (not_lt.2 this)
  have hvalid :
      (PhotometricUndistorter.ctor (some table) vignette w_ h_ globalSettings_).valid = false := by
    cases vignette <;> simp [PhotometricUndistorter.ctor, hscan]
  exact ⟨hvalid, by simp [PhotometricUndistorter.getG, hvalid]⟩

/-- Witness for C3: the table `[2, 1]` descends from position 0 to position 1. -/
theorem ctor_rejects_descent_witness :
    (∃ (i j : Nat) (_ : i < j) (hj : j < ([2, 1] : List Flt).length),
      ([2, 1] : List Flt)[j] < ([2, 1] : List Flt)[i]) ∧
    (PhotometricUndistorter.ctor (some [2, 1]) (some ⟨1, 1, [1]⟩) 1 1 ()).valid = false ∧
    (PhotometricUndistorter.ctor (some [2, 1]) (some ⟨1, 1, [1]⟩) 1 1 ()).getG.1 = none :=
  ⟨⟨0, 1, by decide, by decide, by norm_num⟩,
   ctor_rejects_descent [2, 1] (some ⟨1, 1, [1]⟩) 1 1 ()
     ⟨0, 1, by decide, by decide, by norm_num⟩⟩

/-- With an invalid corrector `processFrame` copies the samples, scaled by the
factor. -/
theorem processFrame_of_invalid (p : PhotometricUndistorter GlobalSettings)
    (a : ProcessFrameArgs Nat) (hp : p.valid = false) :
    (p.processFrame a).1 = a.image_in.map (fun (v : Nat) => a.factor * (v : Flt)) := by
  simp [PhotometricUndistorter.processFrame, hp]

/-- The buffer `processFrame` returns has as many values as the input has samples. -/
theorem processFrame_length (p : PhotometricUndistorter GlobalSettings)
    (a : ProcessFrameArgs Nat) : (p.processFrame a).1.length = a.image_in.length := by
  unfold PhotometricUndistorter.processFrame
  cases p.valid <;> simp

/-- A list of steps none of which faulted yields all their results. -/
theorem collect_of_all_some {α : Type} (l : List (Option α))
    (h : ∀ o ∈ l, ∃ a, o = some a) : ∃ r, collect l = some r ∧ r.length = l.length := by
  induction l with
  | nil => exact ⟨[], rfl, rfl⟩
  | cons o rest ih =>
    obtain ⟨a, rfl⟩ := h o (List.mem_cons_self _ _)
    obtain ⟨r, hr, hlen⟩ := ih (fun o ho => h o (List.mem_cons_of_mem _ ho))
    exact ⟨a :: r, by simp [collect, hr], by simp [hlen]⟩

/-- A read at a position inside the buffer does not fault. -/
theorem readRaw_of_inside (src : List Flt) (i : Int) (h0 : 0 ≤ i) (h1 : i < src.length) :
    ∃ v, readRaw src i = some v := by
  have hlt : i.toNat < src.length := by omega
  exact ⟨src[i.toNat], by simp [readRaw, h0, List.getElem?_eq_getElem hlt]⟩

/-- All four neighbours of a coordinate are addressable exactly when the floor of
the coordinate and its successor are inside the raw bounds, in both directions. -/
theorem allAddressable_iff (wOrg hOrg : Int) (xx yy : Flt) :
    (∀ n ∈ fourNeighbours xx yy, addressable wOrg hOrg n) ↔
      0 ≤ ⌊xx⌋ ∧ ⌊xx⌋ + 1 < wOrg ∧ 0 ≤ ⌊yy⌋ ∧ ⌊yy⌋ + 1 < hOrg := by
  simp only [fourNeighbours, addressable, List.mem_cons, List.mem_singleton, forall_eq_or_imp,
    forall_eq, List.not_mem_nil, false_implies, implies_true, and_true]
  constructor
  · rintro ⟨⟨h1, -, h3, -⟩, -, -, ⟨-, h6, -, h8⟩⟩
    exact ⟨h1, h6, h3, h8⟩
  · rintro ⟨h1, h2, h3, h4⟩
    refine ⟨⟨h1, ?_, h3, ?_⟩, ⟨?_, h2, h3, ?_⟩, ⟨h1, ?_, ?_, h4⟩, ⟨?_, h2, ?_, h4⟩⟩ <;> omega

/-- When all four neighbours of a coordinate are addressable, each of the four
positions read for it lies inside a row-major buffer of `wOrg * hOrg` samples. -/
theorem readIndices_inside (wOrg hOrg : Int) (xx yy : Flt)
    (hall : ∀ n ∈ fourNeighbours xx yy, addressable wOrg hOrg n) :
    ∀ i ∈ readIndices wOrg xx yy, 0 ≤ i ∧ i < wOrg * hOrg := by
  obtain ⟨hx0, hx1, hy0, hy1⟩ := (allAddressable_iff wOrg hOrg xx yy).1 hall
  intro i hi
  simp only [readIndices, fourNeighbours, List.map_cons, List.map_nil, List.mem_cons,
    List.mem_singleton, List.not_mem_nil, or_false] at hi
  have hrow : ⌊yy⌋ * wOrg + wOrg ≤ hOrg * wOrg - wOrg := by nlinarith
  have hrow0 : 0 ≤ ⌊yy⌋ * wOrg := by nlinarith
  rcases hi with rfl | rfl | rfl | rfl <;> constructor <;> nlinarith

/-- The entry of the built table for an output pixel inside the output rectangle
is the marked raw coordinate of that pixel. -/
theorem remapAt_buildRemap (source : Nat → Flt × Flt) (w h wOrg hOrg : Int) (idx : Nat)
    (hidx : (idx : Int) < w * h) :
    remapAt (buildRemap source w h wOrg hOrg) idx = remapEntry wOrg hOrg (source idx) := by
  have hi : idx < (w * h).toNat := Int.lt_toNat.2 hidx
  unfold remapAt buildRemap
  rw [List.getD_eq_getElem _ _ (by simpa using hi), List.getD_eq_getElem _ _ (by simpa using hi)]
  simp

/-- The resample of one output pixel through an entry made by the build does not
fault on a buffer of `wOrg * hOrg` samples: a sentinel reads nothing, a kept
entry reads four positions inside the buffer. -/
theorem resamplePixel_remapEntry (wOrg hOrg : Int) (buf : List Flt) (src : Flt × Flt)
    (hlen : buf.length = (wOrg * hOrg).toNat) :
    ∃ v, resamplePixel wOrg buf (remapEntry wOrg hOrg src).1 (remapEntry wOrg hOrg src).2 =
      some v := by
  unfold remapEntry
  by_cases hall : ∀ n ∈ fourNeighbours src.1 src.2, addressable wOrg hOrg n
  · rw [if_pos hall]
    have hin := readIndices_inside wOrg hOrg src.1 src.2 hall
    obtain ⟨taps, htaps, -⟩ := collect_of_all_some ((readIndices wOrg src.1 src.2).map (readRaw buf))
      (by
        intro o ho
        obtain ⟨i, hi, rfl⟩ := List.mem_map.1 ho
        obtain ⟨h0, h1⟩ := hin i hi
        exact readRaw_of_inside buf i h0 (by rw [hlen]; omega))
    unfold resamplePixel
    split
    · exact ⟨0, rfl⟩
    · exact ⟨_, by rw [htaps]; rfl⟩
  · rw [if_neg hall]
    exact ⟨0, by simp [resamplePixel, markedInvalid]⟩

/-- The resample through a table made by the build step does not fault on a
buffer of `wOrg * hOrg` samples, and yields one value per output pixel. -/
theorem resample_buildRemapTable (s : Undistort GlobalSettings) (source : Nat → Flt × Flt)
    (buf : List Flt) (hlen : buf.length = (s.wOrg * s.hOrg).toNat) :
    ∃ image, (s.buildRemapTable source).resample buf = some image ∧
      image.length = (s.w * s.h).toNat := by
  unfold Undistort.resample Undistort.buildRemapTable
  simp only
  obtain ⟨image, himage, hl⟩ := collect_of_all_some
    ((List.range (s.w * s.h).toNat).map (fun idx =>
      match (buildRemap source s.w s.h s.wOrg s.hOrg).1[idx]?,
        (buildRemap source s.w s.h s.wOrg s.hOrg).2[idx]? with
      | some xx, some yy => resamplePixel s.wOrg buf xx yy
      | _, _ => none))
    (by
      intro o ho
      obtain ⟨idx, hidx, rfl⟩ := List.mem_map.1 ho
      have hi : idx < (s.w * s.h).toNat := List.mem_range.1 hidx
      have h1 : (buildRemap source s.w s.h s.wOrg s.hOrg).1[idx]? =
          some (remapEntry s.wOrg s.hOrg (source idx)).1 := by
        simp [buildRemap, hi]
      have h2 : (buildRemap source s.w s.h s.wOrg s.hOrg).2[idx]? =
          some (remapEntry s.wOrg s.hOrg (source idx)).2 := by
        simp [buildRemap, hi]
      simp only [h1, h2]
      exact resamplePixel_remapEntry s.wOrg s.hOrg buf (source idx) hlen)
  exact ⟨image, himage, by simpa using hl⟩

/-- With no calibration supplied, `undistort` of a well-formed raw image of the raw
geometry returns the raw samples scaled by the factor, in an image of the raw
width and height. -/
theorem undistort_passthroughFor (globalSetting_ : GlobalSettings) (K0 : Mat33) (valid_ : Bool)
    (wRaw hRaw : Int) (a : UndistortArgs Nat) (himg : a.image_raw.WellFormed)
    (hw : a.image_raw.w = wRaw) (hh : a.image_raw.h = hRaw) :
    ∃ r, (Undistort.passthroughFor globalSetting_ K0 valid_ wRaw hRaw).undistort a = some r ∧
      r.1.image = a.image_raw.data.map (fun (v : Nat) => a.factor * (v : Flt)) ∧
      r.1.w = a.image_raw.w ∧ r.1.h = a.image_raw.h := by
  have hpv : (PhotometricUndistorter.ctor none none wRaw hRaw globalSetting_).valid = false := rfl
  have hcond : a.image_raw.WellFormed ∧
      a.image_raw.w = (Undistort.passthroughFor globalSetting_ K0 valid_ wRaw hRaw).wOrg ∧
      a.image_raw.h = (Undistort.passthroughFor globalSetting_ K0 valid_ wRaw hRaw).hOrg :=
    ⟨himg, hw, hh⟩
  have hpu : (Undistort.passthroughFor globalSetting_ K0 valid_ wRaw hRaw).photometricUndist =
      some (PhotometricUndistorter.ctor none none wRaw hRaw globalSetting_) := rfl
  have hmode : (Undistort.passthroughFor globalSetting_ K0 valid_ wRaw hRaw).passthrough = true :=
    rfl
  unfold Undistort.undistort
  simp only [hpu, if_pos hcond, hmode, if_true, Option.map_some']
  exact ⟨_, rfl, processFrame_of_invalid _ _ hpv, hw.symm, hh.symm⟩

/-- In raw bounds 4 by 4 the raw coordinate `(-1/2, 1)` has an addressable
neighbour and a neighbour outside the bounds: it can satisfy neither "none of the
four is addressable" nor "all four are addressable", however it is marked. -/
theorem mixed_neighbours_example :
    (∃ n ∈ fourNeighbours (-1 / 2 : Flt) 1, addressable 4 4 n) ∧
    (∃ n ∈ fourNeighbours (-1 / 2 : Flt) 1, ¬ addressable 4 4 n) := by
  have hfloor : ⌊(-1 / 2 : Flt)⌋ = -1 := by norm_num
  refine ⟨⟨(0, 1), by simp [fourNeighbours, hfloor], by unfold addressable; decide⟩,
    ⟨(-1, 1), by simp [fourNeighbours, hfloor], by unfold addressable; decide⟩⟩

/-- A coordinate inside the raw image is not enough for the resample: in raw
bounds 4 by 4 the coordinate `(7/2, 3)` lies inside the image, and the bilinear
resample at it faults on every buffer of 16 samples (it reads position 16). -/
theorem inside_raw_image_is_not_enough (buf : List Flt) (hlen : buf.length = 16) :
    ((0 : Flt) ≤ 7 / 2 ∧ (7 / 2 : Flt) < 4 ∧ (0 : Flt) ≤ 3 ∧ (3 : Flt) < 4) ∧
    resamplePixel 4 buf (7 / 2) 3 = none := by
  have hfloor : ⌊(7 / 2 : Flt)⌋ = 3 := by norm_num
  have hfloor3 : ⌊(3 : Flt)⌋ = 3 := by norm_num
  have h15 : ∃ v, readRaw buf 15 = some v := readRaw_of_inside buf 15 (by decide) (by omega)
  have h16 : readRaw buf 16 = none := by
    simp [readRaw, hlen]
  obtain ⟨v, hv⟩ := h15
  refine ⟨by norm_num, ?_⟩
  unfold resamplePixel
  rw [if_neg (by unfold markedInvalid; norm_num)]
  simp only [readIndices, fourNeighbours, hfloor, hfloor3, List.map_cons, List.map_nil]
  norm_num [hv, h16, collect]

/-- The table of the example rectifier: the first entry is kept, the second is the
sentinel. -/
theorem rectifier_example_table :
    buildRemap sourceExample 2 1 4 4 = ([1 / 2, -1], [1, -1]) := by
  have hrange : (List.range (2 * 1 : Int).toNat) = [0, 1] := by decide
  have hkept : remapEntry 4 4 ((1 / 2 : Flt), (1 : Flt)) = (1 / 2, 1) := by
    have hfloor : ⌊(1 / 2 : Flt)⌋ = 0 := by norm_num
    unfold remapEntry
    rw [if_pos]
    rw [allAddressable_iff, hfloor]
    simp
  have hmarked : remapEntry 4 4 ((-1 / 2 : Flt), (1 : Flt)) = (-1, -1) := by
    have hfloor : ⌊(-1 / 2 : Flt)⌋ = -1 := by norm_num
    unfold remapEntry
    rw [if_neg]
    rw [allAddressable_iff, hfloor]
    decide
  simp only [buildRemap, hrange, List.map_cons, List.map_nil, sourceExample, if_true,
    if_neg (by decide : ¬ (1 : Nat) = 0), hkept, hmarked]

/-- The example rectifier, evaluated on the raw image with samples 0 to 15: the
first output pixel is the mean of samples 4 and 5, the second the invalid value. -/
theorem rectifier_example_output :
    ((rectifierExample.buildRemapTable sourceExample).undistort
      ⟨rawExample, 0, 0, 1, false⟩).map (fun r => r.1.image) = some [9 / 2, 0] := by
  have hfloor : ⌊(1 / 2 : Flt)⌋ = 0 := by norm_num
  have hrange : (List.range (2 * 1 : Int).toNat) = [0, 1] := by decide
  have hcond : rawExample.WellFormed ∧ rawExample.w = 4 ∧ rawExample.h = 4 :=
    ⟨⟨by decide, by decide, rfl⟩, rfl, rfl⟩
  have hpv : (PhotometricUndistorter.ctor none none 4 4 ()).valid = false := rfl
  have h4 : Int.toNat 4 = 4 := rfl
  have h5 : Int.toNat 5 = 5 := rfl
  have hfract : Int.fract (1 / 2 : Flt) = 1 / 2 := by
    rw [Int.fract, hfloor]; norm_num
  simp only [Undistort.undistort, Undistort.buildRemapTable, rectifierExample, Undistort.ctor,
    if_pos hcond, processFrame_of_invalid _ _ hpv, Undistort.resample,
    rectifier_example_table, hrange]
  norm_num [rawExample, resamplePixel, markedInvalid, readIndices, fourNeighbours, hfloor,
    bilinearWeights, readRaw, collect, hfract, h4, h5]

end SpecTheorems

end dso
